import Mathlib

/-
Verification of the solar-midnight temporal-geometry core of the
new-year-wave visualization (source: src/App.jsx).  Longitudes and
fractional hours are embedded as exact rationals; UTC instants as
calendar-field records with proleptic-Gregorian epoch arithmetic
standing in for the date library used by the source.
-/

namespace NewYearWave

/-- UTC instant with the calendar fields the core reads
(year, month, day, hour, minute, second). -/
structure Instant where
  year : ℤ
  month : ℕ
  day : ℕ
  hour : ℕ
  minute : ℕ
  second : ℕ
deriving DecidableEq, Repr

/-- Proleptic-Gregorian leap-year test, as in the date library backing
the source. -/
def isLeap (y : ℤ) : Bool := (y % 4 == 0 && y % 100 != 0) || y % 400 == 0

/-- Number of days in a month of the proleptic-Gregorian calendar. -/
def daysInMonth (y : ℤ) (m : ℕ) : ℕ :=
  if m = 2 then (if isLeap y then 29 else 28)
  else if m = 4 ∨ m = 6 ∨ m = 9 ∨ m = 11 then 30
  else 31

/-- Field-validity of a UTC instant: every calendar field in range. -/
def Valid (t : Instant) : Prop :=
  1 ≤ t.month ∧ t.month ≤ 12 ∧ 1 ≤ t.day ∧ t.day ≤ daysInMonth t.year t.month ∧
  t.hour ≤ 23 ∧ t.minute ≤ 59 ∧ t.second ≤ 59

instance (t : Instant) : Decidable (Valid t) := by unfold Valid; infer_instance

/-- Days since 1970-01-01 of a proleptic-Gregorian civil date
(standard days-from-civil algorithm; models the epoch arithmetic of the
date library used by the source). -/
def daysFromCivil (y m d : ℤ) : ℤ :=
  let ys := if m ≤ 2 then y - 1 else y
  let era := ys / 400
  let yoe := ys - era * 400
  let mp := (m + 9) % 12
  let doy := (153 * mp + 2) / 5 + d - 1
  let doe := yoe * 365 + yoe / 4 - yoe / 100 + doy
  era * 146097 + doe - 719468

/-- Seconds since the epoch of a UTC instant. -/
def toSecs (t : Instant) : ℤ :=
  86400 * daysFromCivil t.year (t.month : ℤ) (t.day : ℤ) +
    3600 * (t.hour : ℤ) + 60 * (t.minute : ℤ) + (t.second : ℤ)

/-- Fractional hour used by the phase classifier
(source line 90: hour + minute / 60). -/
def hourMin (t : Instant) : ℚ := (t.hour : ℚ) + (t.minute : ℚ) / 60

/-- Fractional hour used by the solar-midnight locator and the coverage
computation (source lines 64 and 177: hour + minute / 60 + second / 3600). -/
def hourSec (t : Instant) : ℚ :=
  (t.hour : ℚ) + (t.minute : ℚ) / 60 + (t.second : ℚ) / 3600

/-- Embeds the first normalization loop of the source (line 68):
while (lon < -180) lon += 360. -/
def wrapUp (x : ℚ) : ℚ :=
  if h : x < -180 then wrapUp (x + 360) else x
termination_by (⌈(-180 - x) / 360⌉).toNat
decreasing_by
  have hpos : (0 : ℚ) < (-180 - x) / 360 := div_pos (by linarith) (by norm_num)
  have h1 : 0 < ⌈(-180 - x) / 360⌉ := Int.ceil_pos.mpr hpos
  have key : (-180 - (x + 360)) / 360 = (-180 - x) / 360 - 1 := by ring
  rw [key, Int.ceil_sub_one]
  omega

/-- Embeds the second normalization loop of the source (line 69):
while (lon > 180) lon -= 360. -/
def wrapDown (x : ℚ) : ℚ :=
  if h : x > 180 then wrapDown (x - 360) else x
termination_by (⌈(x - 180) / 360⌉).toNat
decreasing_by
  have hpos : (0 : ℚ) < (x - 180) / 360 := div_pos (by linarith) (by norm_num)
  have h1 : 0 < ⌈(x - 180) / 360⌉ := Int.ceil_pos.mpr hpos
  have key : (x - 360 - 180) / 360 = (x - 180) / 360 - 1 := by ring
  rw [key, Int.ceil_sub_one]
  omega

/-- Normalization of a longitude into the interval from -180 to 180, as the
two successive loops on source lines 68 and 69. -/
def normalize (x : ℚ) : ℚ := wrapDown (wrapUp x)

/-- Solar-midnight longitude of a UTC instant
(source lines 63 to 71: lon = -totalHours * 15, then the two loops). -/
def solarMidnightLon (t : Instant) : ℚ := normalize (-(hourSec t) * 15)

/-- Transition test of the classifier (source line 96):
Dec 31 with hour at least 12, or Jan 1 with hour below 12. -/
def inTransition (t : Instant) : Bool :=
  (t.month == 12 && t.day == 31 && decide ((12 : ℚ) ≤ hourMin t)) ||
  (t.month == 1 && t.day == 1 && decide (hourMin t < 12))

/-- Completion test of the classifier (source lines 99 to 101). -/
def transitionComplete (t : Instant) : Bool :=
  (t.month == 1 && t.day == 1 && decide ((12 : ℚ) ≤ hourMin t)) ||
  (t.month == 1 && decide (1 < t.day)) ||
  (decide (1 < t.month) && decide (t.month < 12))

/-- Pre-transition test of the classifier (source line 104). -/
def beforeTransition (t : Instant) : Bool :=
  (t.month == 12 && t.day == 31 && decide (hourMin t < 12)) ||
  (t.month == 12 && decide (t.day < 31))

/-- The three phases of the transition timeline. -/
inductive TransitionPhase where
  | Before : TransitionPhase
  | During : TransitionPhase
  | Complete : TransitionPhase
deriving DecidableEq, Repr

/-- Phase assigned to an instant from the three classifier booleans. -/
def classify (t : Instant) : TransitionPhase :=
  if beforeTransition t then TransitionPhase.Before
  else if inTransition t then TransitionPhase.During
  else TransitionPhase.Complete

/-- Coverage percentage (source lines 171 to 187). -/
def coverage (t : Instant) : ℚ :=
  if beforeTransition t then 0
  else if transitionComplete t then 100
  else if t.month = 12 ∧ t.day = 31 then ((hourSec t - 12) / 24) * 100
  else if t.month = 1 ∧ t.day = 1 then ((hourSec t + 12) / 24) * 100
  else 0

/-- Wave-start instant used by the countdown and the midnight-time
predictor: Dec 31 12:00:00 UTC of the given year (source lines 114 and 200). -/
def waveStart (y : ℤ) : Instant := ⟨y, 12, 31, 12, 0, 0⟩

/-- Breakdown of the countdown duration as returned on source
lines 119 to 125. -/
structure CountdownParts where
  days : ℤ
  hours : ℤ
  minutes : ℤ
  seconds : ℤ
  total : ℤ
deriving DecidableEq, Repr

/-- Countdown to wave start (source lines 110 to 126): defined only before
the transition, none when the difference is not positive, else the
day-hour-minute-second breakdown of the difference. -/
def countdown (t : Instant) : Option CountdownParts :=
  if beforeTransition t then
    let diff := toSecs (waveStart t.year) - toSecs t
    if diff ≤ 0 then none
    else some ⟨diff / 86400, diff % 86400 / 3600, diff % 3600 / 60, diff % 60, diff⟩
  else none

/-- Single-step longitude reduction used inside the membership test
(source line 142): one conditional wrap, not a loop. -/
def normalizeOnce (lon : ℚ) : ℚ :=
  if lon > 180 then lon - 360 else if lon < -180 then lon + 360 else lon

/-- Membership test during the transition (source lines 137 to 166).  The
eastern-hemisphere branch keeps the live disjunction of line 156; the
later plain comparison on line 164 is unreachable in the source. -/
def isNewYearDuring (lon m : ℚ) : Bool :=
  let normLon := normalizeOnce lon
  if m ≤ 0 then decide (m < normLon)
  else decide (m < normLon) || decide (normLon < -180 + (180 - m))

/-- Membership test for a longitude, phase and solar-midnight longitude
(source lines 131 to 167). -/
def isNewYear (lon : ℚ) (phase : TransitionPhase) (m : ℚ) : Bool :=
  match phase with
  | TransitionPhase.Before => false
  | TransitionPhase.During => isNewYearDuring lon m
  | TransitionPhase.Complete => true

/-- Predicted solar-midnight instant for a longitude, in seconds since the
epoch (source lines 195 to 202).  The source closes over the year of the
current instant, embedded here as the explicit first argument. -/
def getSolarMidnightTime (currentYear : ℤ) (lon : ℚ) : ℚ :=
  ((toSecs (waveStart currentYear) : ℤ) : ℚ) + ((180 - lon) / 15) * 3600

/-- Display year derived from the current instant (source lines 74 to 81). -/
def displayYear (t : Instant) : ℤ :=
  if t.month = 12 then t.year + 1 else t.year

/-- Window-start instant of the transition containing or preceding an
in-transition instant: Dec 31 12:00 UTC of the same year when the instant
is in December, of the preceding year otherwise. -/
def windowStartFor (t : Instant) : Instant :=
  if t.month = 12 then waveStart t.year else waveStart (t.year - 1)

lemma wrapUp_step {x : ℚ} (h : x < -180) : wrapUp x = wrapUp (x + 360) := by
  rw [wrapUp.eq_def]; simp [h]

lemma wrapUp_eq_self {x : ℚ} (h : ¬ x < -180) : wrapUp x = x := by
  rw [wrapUp.eq_def]; simp [h]

lemma wrapDown_step {x : ℚ} (h : x > 180) : wrapDown x = wrapDown (x - 360) := by
  rw [wrapDown.eq_def]; simp [h]

lemma wrapDown_eq_self {x : ℚ} (h : ¬ x > 180) : wrapDown x = x := by
  rw [wrapDown.eq_def]; simp [h]

lemma wrapUp_ge (x : ℚ) : -180 ≤ wrapUp x := by
  induction x using wrapUp.induct with
  | case1 x h ih => rw [wrapUp_step h]; exact ih
  | case2 x h => rw [wrapUp_eq_self h]; linarith

lemma wrapUp_le {x : ℚ} (hx : x ≤ 180) : wrapUp x ≤ 180 := by
  induction x using wrapUp.induct with
  | case1 x h ih => rw [wrapUp_step h]; exact ih (by linarith)
  | case2 x h => rwa [wrapUp_eq_self h]

lemma wrapUp_congr (x : ℚ) : ∃ k : ℤ, wrapUp x = x + 360 * k := by
  induction x using wrapUp.induct with
  | case1 x h ih =>
      obtain ⟨k, hk⟩ := ih
      exact ⟨k + 1, by rw [wrapUp_step h, hk]; push_cast; ring⟩
  | case2 x h => exact ⟨0, by rw [wrapUp_eq_self h]; push_cast; ring⟩

lemma wrapDown_le (x : ℚ) : wrapDown x ≤ 180 := by
  induction x using wrapDown.induct with
  | case1 x h ih => rw [wrapDown_step h]; exact ih
  | case2 x h => rw [wrapDown_eq_self h]; linarith

lemma wrapDown_ge {x : ℚ} (hx : -180 ≤ x) : -180 ≤ wrapDown x := by
  induction x using wrapDown.induct with
  | case1 x h ih => rw [wrapDown_step h]; exact ih (by linarith)
  | case2 x h => rwa [wrapDown_eq_self h]

lemma wrapDown_congr (x : ℚ) : ∃ k : ℤ, wrapDown x = x + 360 * k := by
  induction x using wrapDown.induct with
  | case1 x h ih =>
      obtain ⟨k, hk⟩ := ih
      exact ⟨k - 1, by rw [wrapDown_step h, hk]; push_cast; ring⟩
  | case2 x h => exact ⟨0, by rw [wrapDown_eq_self h]; push_cast; ring⟩

lemma normalize_ge (x : ℚ) : -180 ≤ normalize x := wrapDown_ge (wrapUp_ge x)

lemma normalize_le (x : ℚ) : normalize x ≤ 180 := wrapDown_le _

lemma normalize_congr (x : ℚ) : ∃ k : ℤ, normalize x = x + 360 * k := by
  obtain ⟨k1, hk1⟩ := wrapUp_congr x
  obtain ⟨k2, hk2⟩ := wrapDown_congr (wrapUp x)
  exact ⟨k1 + k2, by rw [normalize, hk2, hk1]; push_cast; ring⟩

lemma normalize_eq_self {x : ℚ} (h1 : -180 ≤ x) (h2 : x ≤ 180) :
    normalize x = x := by
  rw [normalize, wrapUp_eq_self (by linarith), wrapDown_eq_self (by linarith)]

end NewYearWave

namespace NewYearWave

/-- C8: for every rational longitude the normalization lands in the closed
interval from -180 to 180 and is congruent to the input modulo 360, and the
canonical inputs 190, -190, 540 and 0 map to -170, 170, 180 (the positive
representative) and 0 respectively. -/
theorem c8_normalize_contract :
    (∀ x : ℚ, (-180 ≤ normalize x ∧ normalize x ≤ 180) ∧
      ∃ k : ℤ, normalize x = x + 360 * k) ∧
    normalize 190 = -170 ∧ normalize (-190) = 170 ∧
    (normalize 540 = 180 ∨ normalize 540 = -180) ∧ normalize 0 = 0 := by
  refine ⟨fun x => ⟨⟨normalize_ge x, normalize_le x⟩, normalize_congr x⟩, ?_, ?_, ?_, ?_⟩
  · norm_num [normalize, wrapUp_step, wrapUp_eq_self, wrapDown_step, wrapDown_eq_self]
  · norm_num [normalize, wrapUp_step, wrapUp_eq_self, wrapDown_step, wrapDown_eq_self]
  · left
    norm_num [normalize, wrapUp_step, wrapUp_eq_self, wrapDown_step, wrapDown_eq_self]
  · norm_num [normalize, wrapUp_step, wrapUp_eq_self, wrapDown_step, wrapDown_eq_self]

/-- C10: the normalization is idempotent on every rational longitude. -/
theorem c10_normalize_idempotent :
    ∀ x : ℚ, normalize (normalize x) = normalize x :=
  fun x => normalize_eq_self (normalize_ge x) (normalize_le x)

lemma daysFromCivil_dec_sub (y d e : ℤ) :
    daysFromCivil y 12 d - daysFromCivil y 12 e = d - e := by
  unfold daysFromCivil
  norm_num

lemma daysFromCivil_jan1 (y : ℤ) :
    daysFromCivil y 1 1 = daysFromCivil (y - 1) 12 31 + 1 := by
  unfold daysFromCivil
  norm_num
  omega

/-- C4: the classifier phase and coverage at the five canonical instants,
and linearity of the coverage in the elapsed time since window start
throughout the transition window. -/
theorem c4_classifier_values :
    (∀ y : ℤ,
      classify ⟨y, 12, 31, 11, 59, 59⟩ = TransitionPhase.Before ∧
      coverage ⟨y, 12, 31, 11, 59, 59⟩ = 0 ∧
      classify ⟨y, 12, 31, 12, 0, 0⟩ = TransitionPhase.During ∧
      coverage ⟨y, 12, 31, 12, 0, 0⟩ = 0 ∧
      classify ⟨y, 1, 1, 0, 0, 0⟩ = TransitionPhase.During ∧
      coverage ⟨y, 1, 1, 0, 0, 0⟩ = 50 ∧
      classify ⟨y, 1, 1, 12, 0, 0⟩ = TransitionPhase.Complete ∧
      coverage ⟨y, 1, 1, 12, 0, 0⟩ = 100) ∧
    (∀ (y : ℤ) (h mi s : ℕ),
      classify ⟨y, 6, 15, h, mi, s⟩ = TransitionPhase.Complete ∧
      coverage ⟨y, 6, 15, h, mi, s⟩ = 100) ∧
    (∀ t : Instant, inTransition t = true →
      coverage t =
        ((toSecs t : ℚ) - (toSecs (windowStartFor t) : ℚ)) / 3600 / 24 * 100) := by
  refine ⟨?_, ?_, ?_⟩
  · intro y
    refine ⟨?_, ?_, ?_, ?_, ?_, ?_, ?_, ?_⟩ <;>
      norm_num [classify, coverage, beforeTransition, inTransition,
        transitionComplete, hourMin, hourSec]
  · intro y h mi s
    constructor <;>
      norm_num [classify, coverage, beforeTransition, inTransition,
        transitionComplete, hourMin, hourSec]
  · intro t ht
    obtain ⟨y, mo, d, h, mi, s⟩ := t
    have hsplit : ((mo = 12 ∧ d = 31) ∧ 12 ≤ hourMin ⟨y, mo, d, h, mi, s⟩) ∨
        ((mo = 1 ∧ d = 1) ∧ hourMin ⟨y, mo, d, h, mi, s⟩ < 12) := by
      simpa [inTransition, Bool.or_eq_true, Bool.and_eq_true, beq_iff_eq,
        decide_eq_true_eq] using ht
    rcases hsplit with ⟨⟨hmo, hd⟩, hh⟩ | ⟨⟨hmo, hd⟩, hh⟩
    · subst hmo; subst hd
      have hb : beforeTransition ⟨y, 12, 31, h, mi, s⟩ = false := by
        simp [beforeTransition, not_lt.mpr hh]
      have hc : transitionComplete ⟨y, 12, 31, h, mi, s⟩ = false := by
        norm_num [transitionComplete]
      have hws : windowStartFor ⟨y, 12, 31, h, mi, s⟩ = waveStart y := by
        norm_num [windowStartFor]
      rw [coverage, hb, hc, hws]
      norm_num [hourSec, toSecs, waveStart]
      field_simp
      ring
    · subst hmo; subst hd
      have hb : beforeTransition ⟨y, 1, 1, h, mi, s⟩ = false := by
        norm_num [beforeTransition]
      have hc : transitionComplete ⟨y, 1, 1, h, mi, s⟩ = false := by
        simp [transitionComplete, not_le.mpr hh]
      have hws : windowStartFor ⟨y, 1, 1, h, mi, s⟩ = waveStart (y - 1) := by
        norm_num [windowStartFor]
      rw [coverage, hb, hc, hws]
      have hdays : daysFromCivil y 1 1 = daysFromCivil (y - 1) 12 31 + 1 :=
        daysFromCivil_jan1 y
      norm_num [hourSec, toSecs, waveStart, hdays]
      field_simp
      ring

/-- Witness for C4: the coverage-linearity clause applied at
Jan 1 2025 00:00:00 UTC. -/
theorem c4_classifier_values_witness :
    coverage ⟨2025, 1, 1, 0, 0, 0⟩ =
      ((toSecs ⟨2025, 1, 1, 0, 0, 0⟩ : ℚ) -
        (toSecs (windowStartFor ⟨2025, 1, 1, 0, 0, 0⟩) : ℚ)) / 3600 / 24 * 100 :=
  c4_classifier_values.2.2 ⟨2025, 1, 1, 0, 0, 0⟩ (by norm_num [inTransition, hourMin])



lemma phase_exhaustive (t : Instant) (hv : Valid t) :
    beforeTransition t = true ∨ inTransition t = true ∨ transitionComplete t = true := by
  obtain ⟨y, mo, d, h, mi, s⟩ := t
  unfold Valid at hv
  dsimp only at hv
  obtain ⟨h1, h2, h3, h4, _, _, _⟩ := hv
  simp only [beforeTransition, inTransition, transitionComplete,
    Bool.or_eq_true, Bool.and_eq_true, beq_iff_eq, decide_eq_true_eq]
  generalize hourMin ⟨y, mo, d, h, mi, s⟩ = hm
  rcases lt_or_le hm 12 with hh | hh
  · by_cases hmo : mo = 12
    · subst hmo
      have hd31 : d ≤ 31 := by simpa [daysInMonth] using h4
      rcases eq_or_lt_of_le hd31 with hd | hd
      · exact Or.inl (Or.inl ⟨⟨rfl, hd⟩, hh⟩)
      · exact Or.inl (Or.inr ⟨rfl, hd⟩)
    · by_cases hmo1 : mo = 1
      · rcases Nat.eq_or_lt_of_le h3 with hd | hd
        · exact Or.inr (Or.inl (Or.inr ⟨⟨hmo1, hd.symm⟩, hh⟩))
        · exact Or.inr (Or.inr (Or.inl (Or.inr ⟨hmo1, hd⟩)))
      · have hmid : 1 < mo ∧ mo < 12 := by omega
        exact Or.inr (Or.inr (Or.inr hmid))
  · by_cases hmo : mo = 12
    · subst hmo
      have hd31 : d ≤ 31 := by simpa [daysInMonth] using h4
      rcases eq_or_lt_of_le hd31 with hd | hd
      · exact Or.inr (Or.inl (Or.inl ⟨⟨rfl, hd⟩, hh⟩))
      · exact Or.inl (Or.inr ⟨rfl, hd⟩)
    · by_cases hmo1 : mo = 1
      · rcases Nat.eq_or_lt_of_le h3 with hd | hd
        · exact Or.inr (Or.inr (Or.inl (Or.inl ⟨⟨hmo1, hd.symm⟩, hh⟩)))
        · exact Or.inr (Or.inr (Or.inl (Or.inr ⟨hmo1, hd⟩)))
      · have hmid : 1 < mo ∧ mo < 12 := by omega
        exact Or.inr (Or.inr (Or.inr hmid))

lemma phase_excl (t : Instant) :
    ¬(beforeTransition t = true ∧ inTransition t = true) ∧
    ¬(beforeTransition t = true ∧ transitionComplete t = true) ∧
    ¬(inTransition t = true ∧ transitionComplete t = true) := by
  obtain ⟨y, mo, d, h, mi, s⟩ := t
  simp only [beforeTransition, inTransition, transitionComplete,
    Bool.or_eq_true, Bool.and_eq_true, beq_iff_eq, decide_eq_true_eq]
  refine ⟨?_, ?_, ?_⟩
  · rintro ⟨hb, hi⟩
    rcases hb with ⟨⟨hbm, hbd⟩, hbh⟩ | ⟨hbm, hbd⟩ <;>
      rcases hi with ⟨⟨him, hid⟩, hih⟩ | ⟨⟨him, hid⟩, hih⟩ <;>
      first | omega | linarith
  · rintro ⟨hb, hc⟩
    rcases hb with ⟨⟨hbm, hbd⟩, hbh⟩ | ⟨hbm, hbd⟩ <;>
      rcases hc with ⟨⟨hcm, hcd⟩, hch⟩ | ⟨hcm, hcd⟩ | ⟨hcm, hcd⟩ <;>
      omega
  · rintro ⟨hi, hc⟩
    rcases hi with ⟨⟨him, hid⟩, hih⟩ | ⟨⟨him, hid⟩, hih⟩ <;>
      rcases hc with ⟨⟨hcm, hcd⟩, hch⟩ | ⟨hcm, hcd⟩ | ⟨hcm, hcd⟩ <;>
      first | omega | linarith

lemma coverage_bounds (t : Instant) (hv : Valid t) :
    0 ≤ coverage t ∧ coverage t ≤ 100 := by
  obtain ⟨y, mo, d, h, mi, s⟩ := t
  unfold Valid at hv
  dsimp only at hv
  obtain ⟨h1, h2, h3, h4, h5, h6, h7⟩ := hv
  have hhc : (h : ℚ) ≤ 23 := by exact_mod_cast h5
  have hmic : (mi : ℚ) ≤ 59 := by exact_mod_cast h6
  have hsc : (s : ℚ) ≤ 59 := by exact_mod_cast h7
  have hh0 : (0 : ℚ) ≤ (h : ℚ) := Nat.cast_nonneg h
  have hmi0 : (0 : ℚ) ≤ (mi : ℚ) := Nat.cast_nonneg mi
  have hs0 : (0 : ℚ) ≤ (s : ℚ) := Nat.cast_nonneg s
  unfold coverage
  dsimp only
  split_ifs with hb hc h12 h11
  · norm_num
  · norm_num
  · obtain ⟨hmo, hd⟩ := h12
    subst hmo; subst hd
    have hge : (12 : ℚ) ≤ hourMin ⟨y, 12, 31, h, mi, s⟩ := by
      by_contra hlt
      exact hb (by simp [beforeTransition, not_le.mp hlt])
    simp only [hourMin] at hge
    simp only [hourSec]
    constructor <;> linarith
  · obtain ⟨hmo, hd⟩ := h11
    subst hmo; subst hd
    have hlt : hourMin ⟨y, 1, 1, h, mi, s⟩ < 12 := by
      by_contra hge
      exact hc (by simp [transitionComplete, not_lt.mp hge])
    simp only [hourMin] at hlt
    have hq : (h : ℚ) < 12 := by linarith
    have hn : h < 12 := by exact_mod_cast hq
    have hn11 : (h : ℚ) ≤ 11 := by exact_mod_cast Nat.lt_succ_iff.mp hn
    simp only [hourSec]
    constructor <;> linarith
  · norm_num

/-- C9: on every valid UTC instant exactly one of the three classifier
conditions holds, and the coverage percentage lies in the closed interval
from 0 to 100. -/
theorem c9_phase_partition (t : Instant) (hv : Valid t) :
    (beforeTransition t = true ∨ inTransition t = true ∨ transitionComplete t = true) ∧
    ¬(beforeTransition t = true ∧ inTransition t = true) ∧
    ¬(beforeTransition t = true ∧ transitionComplete t = true) ∧
    ¬(inTransition t = true ∧ transitionComplete t = true) ∧
    0 ≤ coverage t ∧ coverage t ≤ 100 := by
  obtain ⟨he1, he2, he3⟩ := phase_excl t
  obtain ⟨hc1, hc2⟩ := coverage_bounds t hv
  exact ⟨phase_exhaustive t hv, he1, he2, he3, hc1, hc2⟩

/-- Witness for C9 at Jun 15 2025 10:30:30 UTC. -/
theorem c9_phase_partition_witness :
    (beforeTransition ⟨2025, 6, 15, 10, 30, 30⟩ = true ∨
      inTransition ⟨2025, 6, 15, 10, 30, 30⟩ = true ∨
      transitionComplete ⟨2025, 6, 15, 10, 30, 30⟩ = true) ∧
    ¬(beforeTransition ⟨2025, 6, 15, 10, 30, 30⟩ = true ∧
      inTransition ⟨2025, 6, 15, 10, 30, 30⟩ = true) ∧
    ¬(beforeTransition ⟨2025, 6, 15, 10, 30, 30⟩ = true ∧
      transitionComplete ⟨2025, 6, 15, 10, 30, 30⟩ = true) ∧
    ¬(inTransition ⟨2025, 6, 15, 10, 30, 30⟩ = true ∧
      transitionComplete ⟨2025, 6, 15, 10, 30, 30⟩ = true) ∧
    0 ≤ coverage ⟨2025, 6, 15, 10, 30, 30⟩ ∧ coverage ⟨2025, 6, 15, 10, 30, 30⟩ ≤ 100 :=
  c9_phase_partition ⟨2025, 6, 15, 10, 30, 30⟩ (by decide)


/-- C7: whenever the classifier yields Before the countdown is defined,
its total is the positive number of seconds from the instant to
Dec 31 12:00:00 UTC of the year of the instant itself, and the
day-hour-minute-second breakdown recomposes to that total; at
Dec 30 12:00:00 UTC the countdown is exactly 1 day, 0 hours, 0 minutes
and 0 seconds. -/
theorem c7_countdown :
    (∀ t : Instant, Valid t → classify t = TransitionPhase.Before →
      ∃ c : CountdownParts, countdown t = some c ∧ 0 < c.total ∧
        c.total = toSecs (waveStart t.year) - toSecs t ∧
        c.days * 86400 + c.hours * 3600 + c.minutes * 60 + c.seconds = c.total) ∧
    (∀ y : ℤ, countdown ⟨y, 12, 30, 12, 0, 0⟩ = some ⟨1, 0, 0, 0, 86400⟩) := by
  constructor
  · intro t hv hcl
    have hb : beforeTransition t = true := by
      rcases Bool.eq_false_or_eq_true (beforeTransition t) with ht | hf
      · exact ht
      · exfalso
        unfold classify at hcl
        rw [hf] at hcl
        simp only [Bool.false_eq_true, if_false] at hcl
        rcases Bool.eq_false_or_eq_true (inTransition t) with ht2 | hf2
        · rw [ht2] at hcl; simp at hcl
        · rw [hf2] at hcl; simp at hcl
    obtain ⟨y, mo, d, h, mi, s⟩ := t
    unfold Valid at hv
    dsimp only at hv
    obtain ⟨h1, h2, h3, h4, h5, h6, h7⟩ := hv
    have hbp : ((mo = 12 ∧ d = 31) ∧ hourMin ⟨y, mo, d, h, mi, s⟩ < 12) ∨
        (mo = 12 ∧ d < 31) := by
      simpa [beforeTransition, Bool.or_eq_true, Bool.and_eq_true, beq_iff_eq,
        decide_eq_true_eq] using hb
    have hmo : mo = 12 := by rcases hbp with ⟨⟨hm', _⟩, _⟩ | ⟨hm', _⟩ <;> exact hm'
    subst hmo
    have hd31 : (d : ℤ) ≤ 31 := by
      have : d ≤ 31 := by simpa [daysInMonth] using h4
      exact_mod_cast this
    have htime : 3600 * (h : ℤ) + 60 * (mi : ℤ) + (s : ℤ) ≤ 86399 := by
      have hh : (h : ℤ) ≤ 23 := by exact_mod_cast h5
      have hmi : (mi : ℤ) ≤ 59 := by exact_mod_cast h6
      have hs : (s : ℤ) ≤ 59 := by exact_mod_cast h7
      linarith
    have hdiff : toSecs (waveStart y) - toSecs ⟨y, 12, d, h, mi, s⟩ =
        86400 * (31 - (d : ℤ)) + 43200 -
          (3600 * (h : ℤ) + 60 * (mi : ℤ) + (s : ℤ)) := by
      have hsub := daysFromCivil_dec_sub y 31 (d : ℤ)
      unfold toSecs waveStart
      dsimp only
      push_cast
      linarith
    have hpos : 0 < toSecs (waveStart y) - toSecs ⟨y, 12, d, h, mi, s⟩ := by
      rw [hdiff]
      rcases hbp with ⟨⟨_, hd'⟩, hh'⟩ | ⟨_, hd'⟩
      · subst hd'
        have hq : (h : ℚ) < 12 := by
          have hm60 : (0 : ℚ) ≤ (mi : ℚ) / 60 := by positivity
          simp only [hourMin] at hh'
          linarith
        have hn : h < 12 := by exact_mod_cast hq
        have hz : (h : ℤ) ≤ 11 := by exact_mod_cast Nat.lt_succ_iff.mp hn
        have hmi : (mi : ℤ) ≤ 59 := by exact_mod_cast h6
        have hs : (s : ℤ) ≤ 59 := by exact_mod_cast h7
        linarith
      · have hdz : (d : ℤ) ≤ 30 := by exact_mod_cast Nat.lt_succ_iff.mp hd'
        linarith
    have hcd : countdown ⟨y, 12, d, h, mi, s⟩ =
        some ⟨(toSecs (waveStart y) - toSecs ⟨y, 12, d, h, mi, s⟩) / 86400,
          (toSecs (waveStart y) - toSecs ⟨y, 12, d, h, mi, s⟩) % 86400 / 3600,
          (toSecs (waveStart y) - toSecs ⟨y, 12, d, h, mi, s⟩) % 3600 / 60,
          (toSecs (waveStart y) - toSecs ⟨y, 12, d, h, mi, s⟩) % 60,
          toSecs (waveStart y) - toSecs ⟨y, 12, d, h, mi, s⟩⟩ := by
      unfold countdown
      rw [hb]
      simp only [if_true]
      rw [if_neg (not_le.mpr hpos)]
    refine ⟨_, hcd, hpos, rfl, ?_⟩
    dsimp only
    omega
  · intro y
    have hb : beforeTransition ⟨y, 12, 30, 12, 0, 0⟩ = true := by
      norm_num [beforeTransition]
    have hdiff : toSecs (waveStart y) - toSecs ⟨y, 12, 30, 12, 0, 0⟩ = 86400 := by
      have hsub := daysFromCivil_dec_sub y 31 30
      unfold toSecs waveStart
      dsimp only
      push_cast
      linarith
    unfold countdown
    rw [hb]
    simp only [if_true, hdiff]
    norm_num

/-- Witness for C7 at Dec 1 2024 00:00:00 UTC. -/
theorem c7_countdown_witness :
    ∃ c : CountdownParts, countdown ⟨2024, 12, 1, 0, 0, 0⟩ = some c ∧ 0 < c.total ∧
      c.total = toSecs (waveStart 2024) - toSecs ⟨2024, 12, 1, 0, 0, 0⟩ ∧
      c.days * 86400 + c.hours * 3600 + c.minutes * 60 + c.seconds = c.total :=
  c7_countdown.1 ⟨2024, 12, 1, 0, 0, 0⟩ (by decide) (by rfl)


/-- C6: the solar-midnight longitude is the normalization of minus the
fractional UTC hour times 15, and it is 0 at 00:00 UTC, -90 at 06:00 UTC,
-180 (one of the two acceptable signs) at 12:00 UTC and 90 at 18:00 UTC,
on any calendar date. -/
theorem c6_solar_midnight_locator :
    (∀ t : Instant, solarMidnightLon t =
      normalize (-((t.hour : ℚ) + (t.minute : ℚ) / 60 + (t.second : ℚ) / 3600) * 15)) ∧
    (∀ (y : ℤ) (mo d : ℕ), solarMidnightLon ⟨y, mo, d, 0, 0, 0⟩ = 0) ∧
    (∀ (y : ℤ) (mo d : ℕ), solarMidnightLon ⟨y, mo, d, 6, 0, 0⟩ = -90) ∧
    (∀ (y : ℤ) (mo d : ℕ), solarMidnightLon ⟨y, mo, d, 12, 0, 0⟩ = 180 ∨
      solarMidnightLon ⟨y, mo, d, 12, 0, 0⟩ = -180) ∧
    (∀ (y : ℤ) (mo d : ℕ), solarMidnightLon ⟨y, mo, d, 18, 0, 0⟩ = 90) := by
  refine ⟨fun t => rfl, ?_, ?_, ?_, ?_⟩ <;> intro y mo d
  · norm_num [solarMidnightLon, hourSec, normalize, wrapUp_step, wrapUp_eq_self,
      wrapDown_step, wrapDown_eq_self]
  · norm_num [solarMidnightLon, hourSec, normalize, wrapUp_step, wrapUp_eq_self,
      wrapDown_step, wrapDown_eq_self]
  · right
    norm_num [solarMidnightLon, hourSec, normalize, wrapUp_step, wrapUp_eq_self,
      wrapDown_step, wrapDown_eq_self]
  · norm_num [solarMidnightLon, hourSec, normalize, wrapUp_step, wrapUp_eq_self,
      wrapDown_step, wrapDown_eq_self]

/-- C1: at Dec 31 14:00 UTC the transition is active with solar-midnight
longitude 150, yet the membership test accepts longitude -170 although the
normalization of -170 is -170, which is not east of 150: the live
eastern-hemisphere branch of the source adds the wrap clause
normLon < -180 + (180 - normMidnight), so the during-phase behaviour is
not the single comparison normalize(lon) > midnightLon. -/
theorem c1_eastern_branch_divergence :
    solarMidnightLon ⟨2024, 12, 31, 14, 0, 0⟩ = 150 ∧
    inTransition ⟨2024, 12, 31, 14, 0, 0⟩ = true ∧
    isNewYear (-170) TransitionPhase.During 150 = true ∧
    normalize (-170) = -170 ∧ ¬((150 : ℚ) < normalize (-170)) := by
  have hnorm : normalize (-170 : ℚ) = -170 := by
    norm_num [normalize, wrapUp_eq_self, wrapDown_eq_self]
  refine ⟨?_, ?_, ?_, hnorm, ?_⟩
  · norm_num [solarMidnightLon, hourSec, normalize, wrapUp_step, wrapUp_eq_self,
      wrapDown_step, wrapDown_eq_self]
  · norm_num [inTransition, hourMin]
  · norm_num [isNewYear, isNewYearDuring, normalizeOnce]
  · rw [hnorm]; norm_num

/-- C2 counterexample: at 2024-12-31T15:00:00Z the solar-midnight
longitude is 135, not -45, and the membership test rejects longitude -44
at that midnight longitude, contrary to the claimed end-to-end values. -/
theorem c2_midnight_longitude_counterexample :
    solarMidnightLon ⟨2024, 12, 31, 15, 0, 0⟩ = 135 ∧
    (135 : ℚ) ≠ -45 ∧
    isNewYear (-44) TransitionPhase.During
      (solarMidnightLon ⟨2024, 12, 31, 15, 0, 0⟩) = false := by
  have hs : solarMidnightLon ⟨2024, 12, 31, 15, 0, 0⟩ = 135 := by
    norm_num [solarMidnightLon, hourSec, normalize, wrapUp_step, wrapUp_eq_self,
      wrapDown_step, wrapDown_eq_self]
  refine ⟨hs, by norm_num, ?_⟩
  rw [hs]
  norm_num [isNewYear, isNewYearDuring, normalizeOnce]

/-- C2 amended: at 2024-12-31T15:00:00Z the solar-midnight longitude is
135, the phase is During with coverage exactly 12.5 percent, and with that
phase and midnight longitude the membership test accepts 136 and rejects
134. -/
theorem c2_end_to_end_amended :
    solarMidnightLon ⟨2024, 12, 31, 15, 0, 0⟩ = 135 ∧
    classify ⟨2024, 12, 31, 15, 0, 0⟩ = TransitionPhase.During ∧
    coverage ⟨2024, 12, 31, 15, 0, 0⟩ = 25 / 2 ∧
    isNewYear 136 TransitionPhase.During 135 = true ∧
    isNewYear 134 TransitionPhase.During 135 = false := by
  refine ⟨?_, ?_, ?_, ?_, ?_⟩
  · norm_num [solarMidnightLon, hourSec, normalize, wrapUp_step, wrapUp_eq_self,
      wrapDown_step, wrapDown_eq_self]
  · norm_num [classify, beforeTransition, inTransition, hourMin]
  · norm_num [coverage, beforeTransition, transitionComplete, hourMin, hourSec]
  · norm_num [isNewYear, isNewYearDuring, normalizeOnce]
  · norm_num [isNewYear, isNewYearDuring, normalizeOnce]

/-- C3: the predictor anchors at Dec 31 12:00 UTC of the year of the
current instant.  Evaluated during January 2025 (display year 2025) at
longitude 0 it therefore returns Jan 1 2026 00:00 UTC, one year after the
Jan 1 2025 00:00 UTC required by the claim; the claimed values hold only
when the current year is the year before the new-year year, as in the
three December-evaluated cases. -/
theorem c3_predictor_year_anchor :
    displayYear ⟨2025, 1, 1, 6, 0, 0⟩ = 2025 ∧
    getSolarMidnightTime 2025 0 = ((toSecs ⟨2026, 1, 1, 0, 0, 0⟩ : ℤ) : ℚ) ∧
    getSolarMidnightTime 2024 0 = ((toSecs ⟨2025, 1, 1, 0, 0, 0⟩ : ℤ) : ℚ) ∧
    getSolarMidnightTime 2024 180 = ((toSecs ⟨2024, 12, 31, 12, 0, 0⟩ : ℤ) : ℚ) ∧
    getSolarMidnightTime 2024 (-180) = ((toSecs ⟨2025, 1, 1, 12, 0, 0⟩ : ℤ) : ℚ) ∧
    toSecs ⟨2026, 1, 1, 0, 0, 0⟩ ≠ toSecs ⟨2025, 1, 1, 0, 0, 0⟩ := by
  have hA : toSecs (waveStart 2025) = 1767182400 := by decide
  have hB : toSecs ⟨2026, 1, 1, 0, 0, 0⟩ = 1767225600 := by decide
  have hC : toSecs (waveStart 2024) = 1735646400 := by decide
  have hD : toSecs ⟨2025, 1, 1, 0, 0, 0⟩ = 1735689600 := by decide
  have hE : toSecs ⟨2024, 12, 31, 12, 0, 0⟩ = 1735646400 := by decide
  have hF : toSecs ⟨2025, 1, 1, 12, 0, 0⟩ = 1735732800 := by decide
  refine ⟨by decide, ?_, ?_, ?_, ?_, by decide⟩
  · rw [getSolarMidnightTime, hA, hB]; norm_num
  · rw [getSolarMidnightTime, hC, hD]; norm_num
  · rw [getSolarMidnightTime, hC, hE]; norm_num
  · rw [getSolarMidnightTime, hC, hF]; norm_num

/-- C5 counterexample: the membership test reduces its longitude by a
single wrap step, so 550 (congruent to -170 modulo 360) is accepted while
-170 is rejected at midnight longitude 0. -/
theorem c5_periodicity_counterexample :
    isNewYear 550 TransitionPhase.During 0 = true ∧
    isNewYear (-170) TransitionPhase.During 0 = false ∧
    (550 : ℚ) = -170 + 360 * 2 := by
  refine ⟨?_, ?_, by norm_num⟩ <;>
    norm_num [isNewYear, isNewYearDuring, normalizeOnce]

lemma normalizeOnce_sub (x : ℚ) : ∃ j : ℤ, normalizeOnce x = x + 360 * j := by
  unfold normalizeOnce
  split_ifs
  · exact ⟨-1, by push_cast; ring⟩
  · exact ⟨1, by push_cast; ring⟩
  · exact ⟨0, by push_cast; ring⟩

lemma normalizeOnce_strict {x : ℚ} (h1 : -540 ≤ x) (h2 : x ≤ 540)
    (hne : ¬ ∃ j : ℤ, x = 180 + 360 * j) :
    -180 < normalizeOnce x ∧ normalizeOnce x < 180 := by
  have h5 : x ≠ -540 := by rintro rfl; exact hne ⟨-2, by norm_num⟩
  have h6 : x ≠ -180 := by rintro rfl; exact hne ⟨-1, by norm_num⟩
  have h7 : x ≠ 180 := by rintro rfl; exact hne ⟨0, by norm_num⟩
  have h8 : x ≠ 540 := by rintro rfl; exact hne ⟨1, by norm_num⟩
  unfold normalizeOnce
  split_ifs with ha hb
  · constructor
    · linarith
    · have : x < 540 := lt_of_le_of_ne h2 h8
      linarith
  · constructor
    · have : -540 < x := lt_of_le_of_ne h1 (Ne.symm h5)
      linarith
    · linarith
  · constructor
    · exact lt_of_le_of_ne (not_lt.mp hb) (Ne.symm h6)
    · exact lt_of_le_of_ne (not_lt.mp ha) h7

/-- C5 amended: the during-phase membership test is invariant under
shifting the queried longitude by whole turns whenever both the original
and the shifted longitude lie within the single-wrap range from -540 to
540 and the longitude is not congruent to 180 modulo 360. -/
theorem c5_periodicity_amended (lon : ℚ) (k : ℤ) (m : ℚ)
    (h1 : -540 ≤ lon) (h2 : lon ≤ 540)
    (h3 : -540 ≤ lon + 360 * (k : ℚ)) (h4 : lon + 360 * (k : ℚ) ≤ 540)
    (h5 : ¬ ∃ j : ℤ, lon = 180 + 360 * (j : ℚ)) :
    isNewYear (lon + 360 * (k : ℚ)) TransitionPhase.During m =
      isNewYear lon TransitionPhase.During m := by
  have hy5 : ¬ ∃ j : ℤ, lon + 360 * (k : ℚ) = 180 + 360 * (j : ℚ) := by
    rintro ⟨j, hj⟩
    exact h5 ⟨j - k, by push_cast; linarith⟩
  obtain ⟨jx, hjx⟩ := normalizeOnce_sub lon
  obtain ⟨jy, hjy⟩ := normalizeOnce_sub (lon + 360 * (k : ℚ))
  obtain ⟨hax, hbx⟩ := normalizeOnce_strict h1 h2 h5
  obtain ⟨hay, hby⟩ := normalizeOnce_strict h3 h4 hy5
  have hKq : normalizeOnce (lon + 360 * (k : ℚ)) - normalizeOnce lon =
      360 * ((k + jy - jx : ℤ) : ℚ) := by
    rw [hjx, hjy]; push_cast; ring
  have hb1 : (-1 : ℚ) < ((k + jy - jx : ℤ) : ℚ) := by linarith
  have hb2 : ((k + jy - jx : ℤ) : ℚ) < 1 := by linarith
  have hi1 : (-1 : ℤ) < k + jy - jx := by exact_mod_cast hb1
  have hi2 : k + jy - jx < 1 := by exact_mod_cast hb2
  have hK0 : k + jy - jx = 0 := by omega
  have heq : normalizeOnce (lon + 360 * (k : ℚ)) = normalizeOnce lon := by
    rw [hK0] at hKq
    push_cast at hKq
    linarith
  simp only [isNewYear, isNewYearDuring, heq]

/-- Witness for C5 amended at longitude -170 shifted by one turn. -/
theorem c5_periodicity_amended_witness :
    isNewYear ((-170 : ℚ) + 360 * ((1 : ℤ) : ℚ)) TransitionPhase.During 0 =
      isNewYear (-170) TransitionPhase.During 0 :=
  c5_periodicity_amended (-170) 1 0 (by norm_num) (by norm_num) (by norm_num)
    (by norm_num)
    (by
      rintro ⟨j, hj⟩
      have hz : ((360 * j : ℤ) : ℚ) = -350 := by push_cast; linarith
      have hz2 : (360 * j : ℤ) = -350 := by exact_mod_cast hz
      omega)


end NewYearWave
